import Mathlib

/-!
Verification of `discocli.py` (rcruz63/discocli) against its specification.

The Python module is shallowly embedded below.  Machine integers are `Int`,
Python strings are Lean `String`, Python dicts (used as episode records,
with insertion order observable through `keys()` and `csv.DictWriter`) are
association lists `List (String × String)`, and fallible Python code
(functions that can raise) returns `Except String _`.
-/

namespace Discocli

/-! ## Python string primitives

`str.strip()` and `str.replace(old, new)` are implemented structurally on
character lists (Lean's built-in `String.trim`/`String.replace` are defined
by well-founded recursion on byte positions and do not reduce inside the
kernel, which would block evaluation of concrete witnesses). -/

/-- Python's whitespace set for `str.strip()`. -/
def pyEsEspacio (c : Char) : Bool :=
  c == ' ' || c == '\t' || c == '\n' || c == '\r' || c == Char.ofNat 11 || c == Char.ofNat 12

/-- Python `s.strip()`: drop leading and trailing whitespace. -/
def pyStrip (s : String) : String :=
  String.mk (((s.toList.dropWhile pyEsEspacio).reverse.dropWhile pyEsEspacio).reverse)

/-- Left-to-right non-overlapping replacement; the fuel (list length at the
start) makes the recursion structural. -/
def replaceLoop (pat rep : List Char) : Nat → List Char → List Char
  | 0, l => l
  | _ + 1, [] => []
  | fuel + 1, c :: rest =>
    if pat.isPrefixOf (c :: rest) then
      rep ++ replaceLoop pat rep fuel ((c :: rest).drop pat.length)
    else c :: replaceLoop pat rep fuel rest

/-- Python `s.replace(old, new)` for non-empty `old`. -/
def pyReplace (s pat rep : String) : String :=
  String.mk (replaceLoop pat.toList rep.toList s.toList.length s.toList)

/-! ## Python `datetime.datetime` (the fragment used by the module)

`datetime(year, month, day)` validates, in this order, that
`MINYEAR (= 1) ≤ year ≤ MAXYEAR (= 9999)`, `1 ≤ month ≤ 12` and
`1 ≤ day ≤ days_in_month(year, month)`, raising `ValueError` otherwise;
comparison of datetimes is lexicographic on (year, month, day). -/

def esBisiesto (y : Int) : Bool :=
  (y % 4 == 0 && y % 100 != 0) || (y % 400 == 0)

def diasEnMes (y m : Int) : Int :=
  if m == 2 then (if esBisiesto y then 29 else 28)
  else if m == 4 || m == 6 || m == 9 || m == 11 then 30
  else 31

structure PyDate where
  year : Int
  month : Int
  day : Int
deriving DecidableEq, Repr

def mkDatetime (y m d : Int) : Except String PyDate :=
  if y < 1 || 9999 < y then .error "year is out of range"
  else if m < 1 || 12 < m then .error "month must be in 1..12"
  else if d < 1 || diasEnMes y m < d then .error "day is out of range for month"
  else .ok ⟨y, m, d⟩

def PyDate.le (a b : PyDate) : Bool :=
  a.year < b.year ||
    (a.year == b.year &&
      (a.month < b.month || (a.month == b.month && (a.day < b.day || a.day == b.day))))

/-! ## Source constants (discocli.py lines 19-20) -/

def FECHA_INICIO : PyDate := ⟨2008, 2, 1⟩

def FECHA_FIN : PyDate := ⟨2021, 6, 30⟩

/-! ## `validar_fecha` (discocli.py lines 24-36)

    fecha = datetime(anio, mes, 1)
    return FECHA_INICIO <= fecha <= FECHA_FIN
-/

def validar_fecha (mes anio : Int) : Except String Bool :=
  (mkDatetime anio mes 1).map (fun fecha => FECHA_INICIO.le fecha && fecha.le FECHA_FIN)

/-! ## Episode records: Python dicts with string keys and values -/

abbrev Registro := List (String × String)

def dictLookup (reg : Registro) (k : String) : Option String :=
  match reg with
  | [] => none
  | (k2, v) :: rest => if k2 == k then some v else dictLookup rest k

/-- Python `d.get(k, '')` / `d.get(k)`-truthiness: absent keys behave as `""`. -/
def dictGet (reg : Registro) (k : String) : String :=
  (dictLookup reg k).getD ""

def dictHasKey (reg : Registro) (k : String) : Bool :=
  (dictLookup reg k).isSome

/-- Python `d.keys()` in insertion order. -/
def dictKeys (reg : Registro) : List String :=
  reg.map (fun kv => kv.1)

/-! ## One `li.elem_` markup item, as consumed by the parser in
`obtener_episodios` (discocli.py lines 115-151).

The `data-setup` attribute holds JSON; the code runs
`json.loads(item.get('data-setup', '{}'))`, so a missing attribute decodes
as the empty object while malformed JSON raises `json.JSONDecodeError`
(caught: the item is skipped).  Optional sub-elements are `Option`; an
attribute on a present sub-element is a further `Option` (the code reads it
with `.get(attr, '')`). -/

structure DataSetup where
  title : Option String
  idAsset : Option String
deriving DecidableEq, Repr

inductive DataSetupAttr where
  | absent
  | malformed
  | valid (ds : DataSetup)
deriving DecidableEq, Repr

def decodeDataSetup : DataSetupAttr → Option DataSetup
  | .absent => some ⟨none, none⟩
  | .malformed => none
  | .valid ds => some ds

structure Item where
  data_setup : DataSetupAttr
  /-- text of the `.maintitle` sub-element, when present -/
  maintitle : Option String
  /-- the `.datemi` sub-element, when present, with its optional `aria-label` -/
  datemi_aria : Option (Option String)
  /-- the `.duration` sub-element, when present, with its optional `aria-label` -/
  duration_aria : Option (Option String)
  /-- the `.goto_media` sub-element, when present, with its optional `href` -/
  goto_media_href : Option (Option String)
  /-- text of the `.description` sub-element, when present -/
  description : Option String
deriving DecidableEq, Repr

/-- The per-item body of the parsing loop (discocli.py lines 115-151).
`none` models the `except (json.JSONDecodeError, AttributeError): continue`
path: the item is skipped. -/
def parseItem (item : Item) : Option Registro :=
  match decodeDataSetup item.data_setup with
  | none => none
  | some ds =>
    let titulo := match item.maintitle with
      | some t => pyStrip t
      | none => ds.title.getD "Sin título"
    let fecha := match item.datemi_aria with
      | some aria => pyReplace (aria.getD "") "Fecha de Emisión: " ""
      | none => ""
    let duracion := match item.duration_aria with
      | some aria => pyReplace (aria.getD "") "Duración: " ""
      | none => ""
    let url_episodio := match item.goto_media_href with
      | some href => href.getD ""
      | none => ""
    let id_asset := ds.idAsset.getD ""
    let base : Registro :=
      [("id", id_asset), ("titulo", titulo), ("url", url_episodio),
       ("fecha", fecha), ("duracion", duracion)]
    match item.description with
    | some d => some (base ++ [("descripcion", pyStrip d)])
    | none => some base

/-! ## One fetched listing page -/

structure Pagina where
  /-- the `li.elem_` items found by `soup.select` -/
  items : List Item
  /-- whether `soup.select('.siguiente')` is non-empty -/
  siguiente : Bool
deriving DecidableEq, Repr

/-- Result of `requests.get` + `raise_for_status` for one page:
`fail` models a raised `requests.RequestException`. -/
inductive FetchResult where
  | fail
  | ok (p : Pagina)
deriving DecidableEq, Repr

/-! ## `obtener_episodios` (discocli.py lines 85-166)

The site is abstracted as a map from page number to fetch outcome.  The
`while True` loop is given explicit fuel (the spec notes the loop is
unbounded and may diverge on adversarial markup); alongside the accumulated
records we return the list of page numbers fetched, so that "performs no
further fetch" is statable. -/

def walkFrom (site : Nat → FetchResult) : Nat → Nat → List Registro → List Registro × List Nat
  | 0, _, acc => (acc, [])
  | fuel + 1, page, acc =>
    match site page with
    | .fail => (acc, [page])
    | .ok pg =>
      if pg.items.isEmpty then (acc, [page])
      else
        let acc2 := acc ++ pg.items.filterMap parseItem
        if pg.siguiente then
          let r := walkFrom site fuel (page + 1) acc2
          (r.1, page :: r.2)
        else (acc2, [page])

def obtener_episodios (site : Nat → FetchResult) (fuel : Nat) : List Registro × List Nat :=
  walkFrom site fuel 1 []

/-- Records parsed from page `k` of the site (empty when the fetch fails). -/
def registrosDe (site : Nat → FetchResult) (k : Nat) : List Registro :=
  match site k with
  | .fail => []
  | .ok pg => pg.items.filterMap parseItem

/-- Records of pages `1..n`, in page-then-item order. -/
def registrosHasta (site : Nat → FetchResult) : Nat → List Registro
  | 0 => []
  | n + 1 => registrosHasta site n ++ registrosDe site (n + 1)

/-- The page numbers `[1, …, n]`. -/
def paginas (n : Nat) : List Nat :=
  (List.range n).map (fun k => k + 1)

/-! ## `buscar_episodio_por_numero` (discocli.py lines 209-247) -/

/-- The Python regex `re.match(r'(\d+\.?\d*)', titulo)`: anchored at the
start, one or more digits, an optional single dot, then zero or more
digits; `none` when the title does not start with a digit. -/
def leadingNumber (s : String) : Option String :=
  let cs := s.toList
  let ds := cs.takeWhile Char.isDigit
  if ds.isEmpty then none
  else
    match cs.drop ds.length with
    | '.' :: rest2 => some (String.mk (ds ++ '.' :: rest2.takeWhile Char.isDigit))
    | _ => some (String.mk ds)

/-- `episodio['titulo']`; records built by the parser always carry the key. -/
def tituloDe (ep : Registro) : String :=
  dictGet ep "titulo"

/-- The per-episode test of the search loop: the extracted leading number,
dots removed, equals the normalized input. -/
def matchRecord (normalizado : String) (ep : Registro) : Bool :=
  match leadingNumber (tituloDe ep) with
  | some g => pyReplace g "." "" == normalizado
  | none => false

/-- The inner `for episodio in episodios` loop: first matching record. -/
def primeraCoincidencia (normalizado : String) : List Registro → Option Registro
  | [] => none
  | ep :: rest =>
    if matchRecord normalizado ep then some ep else primeraCoincidencia normalizado rest

/-- `fecha_actual.replace(...)`: advance one month, keeping the day. -/
def siguienteMes (f : PyDate) : PyDate :=
  if f.month == 12 then ⟨f.year + 1, 1, f.day⟩ else ⟨f.year, f.month + 1, f.day⟩

/-- The whole archive: one abstract site per (mes, anio) query. -/
abbrev Archivo := Int × Int → Nat → FetchResult

def episodiosDe (archivo : Archivo) (pf : Nat) (mes anio : Int) : List Registro :=
  (obtener_episodios (archivo (mes, anio)) pf).1

/-- The `while fecha_actual <= FECHA_FIN` loop, with fuel.  From
`FECHA_INICIO` the loop runs exactly 161 iterations, so any fuel ≥ 162
makes the embedding exact. -/
def buscarLoop (archivo : Archivo) (pf : Nat) (normalizado : String) :
    PyDate → Nat → Option Registro
  | _, 0 => none
  | fecha, fuel + 1 =>
    if fecha.le FECHA_FIN then
      match primeraCoincidencia normalizado (episodiosDe archivo pf fecha.month fecha.year) with
      | some ep => some ep
      | none => buscarLoop archivo pf normalizado (siguienteMes fecha) fuel
    else none

def buscar_episodio_por_numero (archivo : Archivo) (pf : Nat) (numero : String) :
    Option Registro :=
  buscarLoop archivo pf (pyStrip (pyReplace numero "." "")) FECHA_INICIO 200

/-- The months the loop visits, starting from a given date, with fuel. -/
def mesesDesde : PyDate → Nat → List PyDate
  | _, 0 => []
  | fecha, fuel + 1 =>
    if fecha.le FECHA_FIN then fecha :: mesesDesde (siguienteMes fecha) fuel else []

/-- The months of the valid window, 2008-02 through 2021-06, in
chronological order (as first-of-month dates). -/
def mesesVentana : List PyDate :=
  mesesDesde FECHA_INICIO 200

/-- Checks that every consecutive pair of dates advances by `siguienteMes`:
the list is in strict chronological month order. -/
def cadenaMeses : List PyDate → Bool
  | [] => true
  | [_] => true
  | a :: b :: rest => (b == siguienteMes a) && cadenaMeses (b :: rest)

/-! ## `formatear_salida` (discocli.py lines 168-207) -/

/-- `json.dumps` escaping of one character (`ensure_ascii=False`). -/
def jsonEscapeChar (c : Char) : String :=
  if c == '"' then "\\\""
  else if c == '\\' then "\\\\"
  else if c == '\n' then "\\n"
  else if c == '\r' then "\\r"
  else if c == '\t' then "\\t"
  else if c == Char.ofNat 8 then "\\b"
  else if c == Char.ofNat 12 then "\\f"
  else if c.toNat < 32 then
    "\\u00" ++ String.mk [hexDigit (c.toNat / 16), hexDigit (c.toNat % 16)]
  else String.singleton c
where
  hexDigit (n : Nat) : Char :=
    if n < 10 then Char.ofNat (48 + n) else Char.ofNat (87 + n)

def jsonStr (s : String) : String :=
  "\"" ++ String.join (s.toList.map jsonEscapeChar) ++ "\""

/-- One record under `json.dumps(..., indent=2)`, at list-element depth. -/
def jsonDict (reg : Registro) : String :=
  match reg with
  | [] => "\x7b\x7d"
  | _ =>
    "\x7b\n" ++
      String.intercalate ",\n"
        (reg.map (fun kv => "    " ++ jsonStr kv.1 ++ ": " ++ jsonStr kv.2)) ++
      "\n  \x7d"

/-- `json.dumps(episodios, indent=2, ensure_ascii=False)`. -/
def jsonDumps (eps : List Registro) : String :=
  match eps with
  | [] => "[]"
  | _ => "[\n" ++ String.intercalate ",\n" (eps.map (fun r => "  " ++ jsonDict r)) ++ "\n]"

/-- `csv` QUOTE_MINIMAL: quote a field iff it contains the delimiter, the
quote character, or a line-terminator character; double embedded quotes. -/
def csvCampo (s : String) : String :=
  if s.toList.any (fun c => c == ',' || c == '"' || c == '\r' || c == '\n') then
    "\"" ++ pyReplace s "\"" "\"\"" ++ "\""
  else s

/-- One CSV row (default dialect: comma-separated, `\r\n` terminator). -/
def csvFila (campos : List String) : String :=
  String.intercalate "," (campos.map csvCampo) ++ "\r\n"

/-- `csv.DictWriter._dict_to_list` with the default `extrasaction='raise'`
and `restval=None` (written as the empty field): keys outside the header
raise `ValueError`, missing keys yield empty fields. -/
def dictAFila (fieldnames : List String) (reg : Registro) : Except String (List String) :=
  if reg.all (fun kv => fieldnames.contains kv.1) then
    .ok (fieldnames.map (fun k => dictGet reg k))
  else .error "ValueError: dict contains fields not in fieldnames"

/-- The `csv` branch of `formatear_salida`: nothing is written for an empty
list; otherwise a header from the first record's keys, then one row per
record. -/
def csvSalida (episodios : List Registro) : Except String String :=
  match episodios with
  | [] => .ok ""
  | primero :: _ =>
    (episodios.mapM (dictAFila (dictKeys primero))).map
      (fun filas => csvFila (dictKeys primero) ++ String.join (filas.map csvFila))

/-- `"-" * 40` -/
def SEP : String :=
  String.mk (List.replicate 40 '-')

/-- Conditional line of the text format: emitted only when the field value
is truthy (non-empty). -/
def lineaOpcional (etiqueta valor : String) : List String :=
  if valor == "" then [] else [etiqueta ++ valor]

/-- The lines appended for one record by the text branch.  `ep['titulo']`
raises `KeyError` when the key is absent. -/
def lineasBloque (ep : Registro) : Except String (List String) :=
  match dictLookup ep "titulo" with
  | none => .error "KeyError: titulo"
  | some titulo =>
    .ok (("Título: " ++ titulo) ::
      (lineaOpcional "Fecha: " (dictGet ep "fecha") ++
       lineaOpcional "Duración: " (dictGet ep "duracion") ++
       lineaOpcional "Programa: " (dictGet ep "programa") ++
       lineaOpcional "Emisora: " (dictGet ep "emisora") ++
       lineaOpcional "Descripción: " (dictGet ep "descripcion") ++
       lineaOpcional "URL: " (dictGet ep "url") ++
       [SEP]))

/-- The `resultado` list built by the text branch across all records. -/
def textoLineas : List Registro → Except String (List String)
  | [] => .ok []
  | ep :: rest => do
    let b ← lineasBloque ep
    let r ← textoLineas rest
    .ok (b ++ r)

/-- The per-record blocks of the text format (one block per record; for a
record whose block construction would raise, the empty block — the
theorems below only use this under the no-raise hypothesis). -/
def bloquesDe (eps : List Registro) : List (List String) :=
  eps.map (fun ep =>
    match lineasBloque ep with
    | .ok b => b
    | .error _ => [])

/-- `formatear_salida(episodios, formato)`: `json` and `csv` are matched
exactly; every other selector takes the text branch. -/
def formatear_salida (episodios : List Registro) (formato : String) : Except String String :=
  if formato == "json" then .ok (jsonDumps episodios)
  else if formato == "csv" then csvSalida episodios
  else (textoLineas episodios).map (String.intercalate "\n")

/-! ## Concrete fixtures: synthetic items, records and sites -/

/-- A synthetic item with every optional sub-element and metadata field absent. -/
def itemVacio : Item :=
  ⟨.absent, none, none, none, none, none⟩

/-- A synthetic item with every optional sub-element and metadata field present. -/
def itemCompleto : Item :=
  ⟨.valid ⟨some "10939. Discópolis", some "1234567"⟩,
   some "  10939. Discópolis  ",
   some (some "Fecha de Emisión: 01 ene 2020"),
   some (some "Duración: 59:30"),
   some (some "https://www.rtve.es/play/audios/discopolis/6553843/"),
   some " Sesión especial. "⟩

/-- A synthetic item with no `.goto_media` link but a present `idAsset`. -/
def itemSinEnlace : Item :=
  ⟨.valid ⟨none, some "7654321"⟩, some "10940. Jazz", none, none, none, none⟩

def regVacio : Registro :=
  [("id", ""), ("titulo", "Sin título"), ("url", ""), ("fecha", ""), ("duracion", "")]

def regCompleto : Registro :=
  [("id", "1234567"), ("titulo", "10939. Discópolis"),
   ("url", "https://www.rtve.es/play/audios/discopolis/6553843/"),
   ("fecha", "01 ene 2020"), ("duracion", "59:30"), ("descripcion", "Sesión especial.")]

def regSinEnlace : Registro :=
  [("id", "7654321"), ("titulo", "10940. Jazz"), ("url", ""), ("fecha", ""), ("duracion", "")]

def regConDescripcion : Registro :=
  regVacio ++ [("descripcion", "una sesión")]

def epConURL : Registro :=
  [("id", ""), ("titulo", "T"), ("url", "http://x"), ("fecha", ""), ("duracion", "")]

/-- Page 1 has an item and a next-page marker; page 2 matches no items. -/
def sitioDosPaginas : Nat → FetchResult := fun page =>
  match page with
  | 1 => .ok ⟨[itemCompleto], true⟩
  | 2 => .ok ⟨[], true⟩
  | _ => .fail

/-- Page 1 has an item and a next-page marker; page 2 has an item but no marker. -/
def sitioSinSiguiente : Nat → FetchResult := fun page =>
  match page with
  | 1 => .ok ⟨[itemCompleto], true⟩
  | 2 => .ok ⟨[itemVacio], false⟩
  | _ => .fail

/-- Page 1 succeeds with a next-page marker; the fetch of page 2 fails. -/
def sitioFalla : Nat → FetchResult := fun page =>
  match page with
  | 1 => .ok ⟨[itemCompleto], true⟩
  | _ => .fail

/-- An archive in which every fetch fails: every month scrapes to `[]`. -/
def archivoVacio : Archivo := fun _ _ => .fail

/-! # Theorems -/

theorem diasEnMes_pos (y m : Int) : 1 ≤ diasEnMes y m := by
  unfold diasEnMes
  split
  · split <;> omega
  · split <;> omega

/-- Characterization of `validar_fecha` on inputs `datetime` can represent:
the boolean is exactly membership of (anio, mes) in the closed window
from (2008, 2) to (2021, 6). -/
theorem validar_fecha_eq (mes anio : Int) (hm1 : 1 ≤ mes) (hm2 : mes ≤ 12)
    (ha1 : 1 ≤ anio) (ha2 : anio ≤ 9999) :
    validar_fecha mes anio =
      .ok (decide ((2008 < anio ∨ (anio = 2008 ∧ 2 ≤ mes)) ∧
                   (anio < 2021 ∨ (anio = 2021 ∧ mes ≤ 6)))) := by
  have hd := diasEnMes_pos anio mes
  unfold validar_fecha mkDatetime
  rw [if_neg (by simp only [Bool.or_eq_true, decide_eq_true_eq]; omega),
      if_neg (by simp only [Bool.or_eq_true, decide_eq_true_eq]; omega),
      if_neg (by simp only [Bool.or_eq_true, decide_eq_true_eq]; omega)]
  simp only [Except.map]
  congr 1
  by_cases hP : ((2008 < anio ∨ (anio = 2008 ∧ 2 ≤ mes)) ∧
                 (anio < 2021 ∨ (anio = 2021 ∧ mes ≤ 6)))
  · rw [decide_eq_true hP]
    simp [PyDate.le, FECHA_INICIO, FECHA_FIN]
    omega
  · rw [decide_eq_false hP]
    rw [Bool.eq_false_iff]
    simp [PyDate.le, FECHA_INICIO, FECHA_FIN]
    omega

/-- Claim C3 (amended): for every month in 1..12 and every year in `datetime`'s
representable range 1..9999, `validar_fecha` returns true exactly when
(month, year) lies inside [2008-02, 2021-06], inclusive of both endpoints,
and false for every such pair outside the window.  (Over literally *every*
year the claim fails: year 0 raises, see the counterexample.) -/
theorem validar_fecha_ventana (mes anio : Int) (hm1 : 1 ≤ mes) (hm2 : mes ≤ 12)
    (ha1 : 1 ≤ anio) (ha2 : anio ≤ 9999) :
    (validar_fecha mes anio = .ok true ↔
       ((2008 < anio ∨ (anio = 2008 ∧ 2 ≤ mes)) ∧ (anio < 2021 ∨ (anio = 2021 ∧ mes ≤ 6)))) ∧
    (validar_fecha mes anio = .ok false ↔
       ¬((2008 < anio ∨ (anio = 2008 ∧ 2 ≤ mes)) ∧ (anio < 2021 ∨ (anio = 2021 ∧ mes ≤ 6)))) := by
  rw [validar_fecha_eq mes anio hm1 hm2 ha1 ha2]
  constructor
  · simp only [Except.ok.injEq, decide_eq_true_eq]
  · simp only [Except.ok.injEq, decide_eq_false_iff_not]

theorem validar_fecha_ventana_witness :
    validar_fecha 2 2008 = .ok true ∧ validar_fecha 1 2008 = .ok false :=
  ⟨((validar_fecha_ventana 2 2008 (by omega) (by omega) (by omega) (by omega)).1).mpr
      (by omega),
   ((validar_fecha_ventana 1 2008 (by omega) (by omega) (by omega) (by omega)).2).mpr
      (by omega)⟩

/-- Claim C3 counterexample: (mes, anio) = (1, 0) is outside the window, but
`validar_fecha` raises `ValueError` from `datetime(0, 1, 1)` instead of
returning false. -/
theorem validar_fecha_anio_cero_contraejemplo :
    validar_fecha 1 0 = .error "year is out of range" ∧ validar_fecha 1 0 ≠ .ok false := by
  constructor
  · rfl
  · intro h
    rw [show validar_fecha 1 0 = .error "year is out of range" from rfl] at h
    exact Except.noConfusion h

/-- Claim C9 (amended): for out-of-window inputs whose month is in 1..12 and
whose year is representable (1..9999), `validar_fecha` raises no exception
and reports invalidity as the boolean false.  A month outside 1..12, such
as 13, instead raises `ValueError` from the `datetime` constructor (the
CLI's `IntRange(1, 12)` keeps such months from ever reaching the
validator). -/
theorem validar_fecha_fuera_sin_excepcion (mes anio : Int) (hm1 : 1 ≤ mes) (hm2 : mes ≤ 12)
    (ha1 : 1 ≤ anio) (ha2 : anio ≤ 9999)
    (hout : ¬((2008 < anio ∨ (anio = 2008 ∧ 2 ≤ mes)) ∧
              (anio < 2021 ∨ (anio = 2021 ∧ mes ≤ 6)))) :
    validar_fecha mes anio = .ok false := by
  rw [validar_fecha_eq mes anio hm1 hm2 ha1 ha2]
  simp only [Except.ok.injEq, decide_eq_false_iff_not]
  exact hout

theorem validar_fecha_fuera_sin_excepcion_witness :
    validar_fecha 1 2000 = .ok false :=
  validar_fecha_fuera_sin_excepcion 1 2000 (by omega) (by omega) (by omega) (by omega)
    (by omega)

/-- Claim C9 counterexample: month 13 raises `ValueError` inside
`datetime(2020, 13, 1)`; the validator does not return any boolean. -/
theorem validar_fecha_mes13_contraejemplo :
    validar_fecha 13 2020 = .error "month must be in 1..12" ∧
    validar_fecha 13 2020 ≠ .ok false := by
  constructor
  · rfl
  · intro h
    rw [show validar_fecha 13 2020 = .error "month must be in 1..12" from rfl] at h
    exact Except.noConfusion h

/-! ## Pagination walk lemmas -/

theorem isEmpty_false_of_ne_nil {α : Type} {l : List α} (h : l ≠ []) : l.isEmpty = false := by
  cases l with
  | nil => exact absurd rfl h
  | cons a t => rfl

theorem paginas_succ (n : Nat) : paginas (n + 1) = paginas n ++ [n + 1] := by
  simp [paginas, List.range_succ]

/-- One iteration of the `while True` loop on a page with items and a
next-page marker: its records are appended, the page is recorded as
fetched, and the loop continues at the next page number. -/
theorem walkFrom_step (site : Nat → FetchResult) (fuel page : Nat) (acc : List Registro)
    (pg : Pagina) (hok : site page = .ok pg) (hne : pg.items.isEmpty = false)
    (hsig : pg.siguiente = true) :
    walkFrom site (fuel + 1) page acc =
      ((walkFrom site fuel (page + 1) (acc ++ pg.items.filterMap parseItem)).1,
       page :: (walkFrom site fuel (page + 1) (acc ++ pg.items.filterMap parseItem)).2) := by
  simp [walkFrom, hok, hne, hsig]

/-- Marching across `n` good pages starting from page 1. -/
theorem walkFrom_march (site : Nat → FetchResult) :
    ∀ (n fuel : Nat) (acc : List Registro),
      (∀ k, 1 ≤ k → k ≤ n →
        ∃ pg, site k = .ok pg ∧ pg.items.isEmpty = false ∧ pg.siguiente = true) →
      walkFrom site (fuel + n) 1 acc =
        ((walkFrom site fuel (n + 1) (acc ++ registrosHasta site n)).1,
         paginas n ++ (walkFrom site fuel (n + 1) (acc ++ registrosHasta site n)).2) := by
  intro n
  induction n with
  | zero =>
    intro fuel acc _
    simp [registrosHasta, paginas]
  | succ m ih =>
    intro fuel acc hgood
    have h1 : walkFrom site ((fuel + 1) + m) 1 acc =
        ((walkFrom site (fuel + 1) (m + 1) (acc ++ registrosHasta site m)).1,
         paginas m ++ (walkFrom site (fuel + 1) (m + 1) (acc ++ registrosHasta site m)).2) :=
      ih (fuel + 1) acc (fun k hk1 hk2 => hgood k hk1 (by omega))
    obtain ⟨pg, hok, hne, hsig⟩ := hgood (m + 1) (by omega) (by omega)
    have h2 := walkFrom_step site fuel (m + 1) (acc ++ registrosHasta site m) pg hok hne hsig
    have hreg : (acc ++ registrosHasta site m) ++ pg.items.filterMap parseItem =
        acc ++ registrosHasta site (m + 1) := by
      simp [registrosHasta, registrosDe, hok, List.append_assoc]
    have harr : fuel + (m + 1) = (fuel + 1) + m := by omega
    rw [harr, h1, h2, hreg, paginas_succ]
    simp

theorem walkFrom_stop_vacia (site : Nat → FetchResult) (fuel page : Nat)
    (acc : List Registro) (pg : Pagina) (hok : site page = .ok pg) (he : pg.items = []) :
    walkFrom site (fuel + 1) page acc = (acc, [page]) := by
  simp [walkFrom, hok, he]

theorem walkFrom_stop_sin_siguiente (site : Nat → FetchResult) (fuel page : Nat)
    (acc : List Registro) (pg : Pagina) (hok : site page = .ok pg)
    (hne : pg.items ≠ []) (hsig : pg.siguiente = false) :
    walkFrom site (fuel + 1) page acc = (acc ++ pg.items.filterMap parseItem, [page]) := by
  simp [walkFrom, hok, isEmpty_false_of_ne_nil hne, hsig]

theorem walkFrom_stop_fallo (site : Nat → FetchResult) (fuel page : Nat)
    (acc : List Registro) (hfail : site page = .fail) :
    walkFrom site (fuel + 1) page acc = (acc, [page]) := by
  simp [walkFrom, hfail]

/-- Claim C1: in a month/year walk whose pages `1..n-1` all have items and a
next-page marker, (a) if page `n` matches zero items the walk returns
exactly the records of pages `1..n-1` in page-then-item order, having
fetched only pages `1..n` — no fetch of page `n+1` is issued; (b) if page
`n` has items but no next-page marker the walk returns the records of
pages `1..n` in page-then-item order and stops. -/
theorem obtener_episodios_paradas (site : Nat → FetchResult) (n fuel : Nat)
    (hn : 1 ≤ n) (hfuel : n + 1 ≤ fuel)
    (hgood : ∀ k, 1 ≤ k → k < n →
      ∃ pg, site k = .ok pg ∧ pg.items.isEmpty = false ∧ pg.siguiente = true) :
    (∀ pg, site n = .ok pg → pg.items = [] →
       obtener_episodios site fuel = (registrosHasta site (n - 1), paginas n) ∧
       n + 1 ∉ paginas n) ∧
    (∀ pg, site n = .ok pg → pg.items ≠ [] → pg.siguiente = false →
       obtener_episodios site fuel = (registrosHasta site n, paginas n)) := by
  obtain ⟨m, rfl⟩ : ∃ m, n = m + 1 := ⟨n - 1, by omega⟩
  have hmarch := walkFrom_march site m (fuel - m) []
    (fun k hk1 hk2 => hgood k hk1 (by omega))
  have hfm : fuel = (fuel - m) + m := by omega
  have hf1 : fuel - m = (fuel - m - 1) + 1 := by omega
  constructor
  · intro pg hok he
    constructor
    · unfold obtener_episodios
      rw [hfm, hmarch, hf1,
        walkFrom_stop_vacia site (fuel - m - 1) (m + 1) ([] ++ registrosHasta site m) pg hok he]
      simp [paginas_succ]
    · simp only [paginas, List.mem_map, List.mem_range, not_exists, not_and]
      intro x hx
      omega
  · intro pg hok hne hsig
    unfold obtener_episodios
    rw [hfm, hmarch, hf1,
      walkFrom_stop_sin_siguiente site (fuel - m - 1) (m + 1) ([] ++ registrosHasta site m)
        pg hok hne hsig]
    simp [paginas_succ, registrosHasta, registrosDe, hok, List.append_assoc]

theorem obtener_episodios_paradas_witness :
    (obtener_episodios sitioDosPaginas 3 = (registrosHasta sitioDosPaginas 1, paginas 2) ∧
       2 + 1 ∉ paginas 2) ∧
    obtener_episodios sitioSinSiguiente 3 = (registrosHasta sitioSinSiguiente 2, paginas 2) := by
  have hgA : ∀ k, 1 ≤ k → k < 2 →
      ∃ pg, sitioDosPaginas k = .ok pg ∧ pg.items.isEmpty = false ∧ pg.siguiente = true := by
    intro k h1 h2
    have hk : k = 1 := by omega
    subst hk
    exact ⟨⟨[itemCompleto], true⟩, rfl, rfl, rfl⟩
  have hgB : ∀ k, 1 ≤ k → k < 2 →
      ∃ pg, sitioSinSiguiente k = .ok pg ∧ pg.items.isEmpty = false ∧ pg.siguiente = true := by
    intro k h1 h2
    have hk : k = 1 := by omega
    subst hk
    exact ⟨⟨[itemCompleto], true⟩, rfl, rfl, rfl⟩
  constructor
  · exact (obtener_episodios_paradas sitioDosPaginas 2 3 (by omega) (by omega) hgA).1
      ⟨[], true⟩ rfl rfl
  · exact (obtener_episodios_paradas sitioSinSiguiente 2 3 (by omega) (by omega) hgB).2
      ⟨[itemVacio], false⟩ rfl (by simp) rfl

/-- Claim C6: if the fetch of page `n` fails after good pages `1..n-1`, the
walk stops and returns the records of the prior successful pages — partial
results, not discarded.  The embedding of `obtener_episodios` is a total
function into a plain pair (the `requests.RequestException` is caught by
the `except` clause at lines 162-164), so no exception reaches the
caller. -/
theorem obtener_episodios_fallo_parcial (site : Nat → FetchResult) (n fuel : Nat)
    (hn : 1 ≤ n) (hfuel : n + 1 ≤ fuel)
    (hgood : ∀ k, 1 ≤ k → k < n →
      ∃ pg, site k = .ok pg ∧ pg.items.isEmpty = false ∧ pg.siguiente = true)
    (hfail : site n = .fail) :
    obtener_episodios site fuel = (registrosHasta site (n - 1), paginas n) := by
  obtain ⟨m, rfl⟩ : ∃ m, n = m + 1 := ⟨n - 1, by omega⟩
  have hmarch := walkFrom_march site m (fuel - m) []
    (fun k hk1 hk2 => hgood k hk1 (by omega))
  have hfm : fuel = (fuel - m) + m := by omega
  have hf1 : fuel - m = (fuel - m - 1) + 1 := by omega
  unfold obtener_episodios
  rw [hfm, hmarch, hf1,
    walkFrom_stop_fallo site (fuel - m - 1) (m + 1) ([] ++ registrosHasta site m) hfail]
  simp [paginas_succ]

theorem obtener_episodios_fallo_parcial_witness :
    obtener_episodios sitioFalla 3 = (registrosHasta sitioFalla 1, paginas 2) := by
  have hg : ∀ k, 1 ≤ k → k < 2 →
      ∃ pg, sitioFalla k = .ok pg ∧ pg.items.isEmpty = false ∧ pg.siguiente = true := by
    intro k h1 h2
    have hk : k = 1 := by omega
    subst hk
    exact ⟨⟨[itemCompleto], true⟩, rfl, rfl, rfl⟩
  exact obtener_episodios_fallo_parcial sitioFalla 2 3 (by omega) (by omega) hg rfl

/-! ## Episode number search lemmas -/

theorem primeraCoincidencia_eq_find (nrm : String) (l : List Registro) :
    primeraCoincidencia nrm l = l.find? (matchRecord nrm) := by
  induction l with
  | nil => rfl
  | cons ep rest ih =>
    rw [primeraCoincidencia, List.find?]
    by_cases h : matchRecord nrm ep
    · simp [h]
    · simp only [Bool.not_eq_true] at h
      simp [h, ih]

theorem find?_append {α : Type} (p : α → Bool) (l1 l2 : List α) :
    (l1 ++ l2).find? p = ((l1.find? p).map some).getD (l2.find? p) := by
  induction l1 with
  | nil => simp
  | cons a t ih =>
    by_cases h : p a
    · simp [List.find?, h]
    · simp only [Bool.not_eq_true] at h
      simp [List.find?, h, ih]

/-- The month loop of `buscar_episodio_por_numero` is the first match over
the concatenation, month by month, of each month's scraped records. -/
theorem buscarLoop_eq_find (archivo : Archivo) (pf : Nat) (nrm : String) :
    ∀ (fuel : Nat) (fecha : PyDate),
      buscarLoop archivo pf nrm fecha fuel =
        ((mesesDesde fecha fuel).flatMap
            (fun f => episodiosDe archivo pf f.month f.year)).find? (matchRecord nrm) := by
  intro fuel
  induction fuel with
  | zero => intro fecha; rfl
  | succ fuel ih =>
    intro fecha
    rw [buscarLoop, mesesDesde]
    by_cases hle : fecha.le FECHA_FIN
    · rw [if_pos hle, if_pos hle, List.flatMap_cons,
        find?_append, primeraCoincidencia_eq_find]
      cases hfind : (episodiosDe archivo pf fecha.month fecha.year).find? (matchRecord nrm) with
      | none => simp [ih]
      | some ep => simp
    · rw [if_neg hle, if_neg hle]
      rfl

set_option maxRecDepth 8000 in
/-- Claim C2: `buscar_episodio_por_numero` normalizes the input by removing
every '.' and stripping surrounding whitespace, scans the (month, year)
pairs of the valid window 2008-02 .. 2021-06 inclusive in chronological
order (161 months, consecutive by `siguienteMes`), and returns the first
scraped record whose leading numeric title prefix — digits, optionally one
decimal point, dots then removed — equals the normalized input; "10939"
matches "10939. Some Show" and not "109390. Other Show"; if the whole
window has no match the result is `none`, not an error. -/
theorem buscar_episodio_caracterizacion :
    (∀ (archivo : Archivo) (pf : Nat) (numero : String),
      buscar_episodio_por_numero archivo pf numero =
        (mesesVentana.flatMap (fun f => episodiosDe archivo pf f.month f.year)).find?
          (matchRecord (pyStrip (pyReplace numero "." "")))) ∧
    mesesVentana.head? = some FECHA_INICIO ∧
    mesesVentana.getLast? = some ⟨2021, 6, 1⟩ ∧
    mesesVentana.length = 161 ∧
    cadenaMeses mesesVentana = true ∧
    mesesVentana.all (fun f => FECHA_INICIO.le f && f.le FECHA_FIN) = true ∧
    pyStrip (pyReplace "10939" "." "") = "10939" ∧
    matchRecord "10939" [("titulo", "10939. Some Show")] = true ∧
    matchRecord "10939" [("titulo", "109390. Other Show")] = false ∧
    (∀ (archivo : Archivo) (pf : Nat) (numero : String),
      (∀ ep ∈ mesesVentana.flatMap (fun f => episodiosDe archivo pf f.month f.year),
        matchRecord (pyStrip (pyReplace numero "." "")) ep = false) →
      buscar_episodio_por_numero archivo pf numero = none) := by
  have hchar : ∀ (archivo : Archivo) (pf : Nat) (numero : String),
      buscar_episodio_por_numero archivo pf numero =
        (mesesVentana.flatMap (fun f => episodiosDe archivo pf f.month f.year)).find?
          (matchRecord (pyStrip (pyReplace numero "." ""))) := by
    intro archivo pf numero
    exact buscarLoop_eq_find archivo pf (pyStrip (pyReplace numero "." "")) 200 FECHA_INICIO
  refine ⟨hchar, by decide, by decide, by decide, by decide, by decide, by decide,
    by decide, by decide, ?_⟩
  intro archivo pf numero hno
  rw [hchar archivo pf numero]
  apply List.find?_eq_none.mpr
  intro ep hep
  rw [hno ep hep]
  exact Bool.false_ne_true

set_option maxRecDepth 8000 in
theorem buscar_episodio_caracterizacion_witness :
    buscar_episodio_por_numero archivoVacio 1 "10939" = none := by
  apply buscar_episodio_caracterizacion.2.2.2.2.2.2.2.2.2 archivoVacio 1 "10939"
  decide

/-! ## Parser theorems -/

/-- Claim C4 (amended): the synthetic item with every optional sub-element
and metadata field absent parses to id = "", titulo = "Sin título",
url = "", fecha = "" — and a `duracion` key is present holding "" (the
dict literal at lines 138-144 always includes it); only the `descripcion`
key is absent.  The all-present synthetic item parses with every field
populated, `descripcion` included. -/
theorem parse_items_sinteticos :
    parseItem itemVacio = some regVacio ∧
    dictKeys regVacio = ["id", "titulo", "url", "fecha", "duracion"] ∧
    dictHasKey regVacio "descripcion" = false ∧
    dictHasKey regVacio "duracion" = true ∧
    dictGet regVacio "duracion" = "" ∧
    parseItem itemCompleto = some regCompleto ∧
    dictKeys regCompleto = ["id", "titulo", "url", "fecha", "duracion", "descripcion"] ∧
    regCompleto.all (fun kv => kv.2 != "") = true := by
  decide

/-- Claim C4 counterexample: the record parsed from the all-absent item
does carry a `duracion` key (with value ""), contradicting "no description
or duration keys present in the record". -/
theorem parse_sin_opcionales_contraejemplo :
    parseItem itemVacio = some regVacio ∧
    dictHasKey regVacio "duracion" = true := by
  decide

/-- Claim C5 (amended): the record's URL is the `.goto_media` link's href
attribute when that link is present (the empty string when the link exists
but carries no href); when the link is absent the URL is the empty string
regardless of the embedded identifier — lines 131-133 contain no fallback
that builds a URL from a base path and the identifier. -/
theorem url_del_enlace (item : Item) (reg : Registro)
    (h : parseItem item = some reg) :
    dictGet reg "url" =
      (match item.goto_media_href with
       | some href => href.getD ""
       | none => "") := by
  unfold parseItem at h
  cases hds : decodeDataSetup item.data_setup with
  | none =>
    rw [hds] at h
    exact Option.noConfusion h
  | some ds =>
    rw [hds] at h
    cases hdesc : item.description with
    | none =>
      rw [hdesc] at h
      have hr := Option.some.inj h
      rw [← hr]
      rfl
    | some d =>
      rw [hdesc] at h
      have hr := Option.some.inj h
      rw [← hr]
      rfl

theorem url_del_enlace_witness :
    dictGet regSinEnlace "url" =
      (match itemSinEnlace.goto_media_href with
       | some href => href.getD ""
       | none => "") :=
  url_del_enlace itemSinEnlace regSinEnlace (by decide)

/-- Claim C5 counterexample: an item with no `.goto_media` link but an
embedded identifier "7654321" parses to url = "" — the URL is empty even
though an identifier is present, and no URL is constructed from a base
path and the identifier. -/
theorem url_sin_fallback_contraejemplo :
    parseItem itemSinEnlace = some regSinEnlace ∧
    dictGet regSinEnlace "id" = "7654321" ∧
    dictGet regSinEnlace "url" = "" := by
  decide

/-! ## Text-format lemmas -/

theorem mem_lineaOpcional {l e v : String} (h : l ∈ lineaOpcional e v) : l = e ++ v := by
  unfold lineaOpcional at h
  split at h
  · exact absurd h (List.not_mem_nil l)
  · rw [List.mem_singleton] at h
    exact h

theorem lineasBloque_ok (ep : Registro) (t : String) (h : dictLookup ep "titulo" = some t) :
    lineasBloque ep =
      .ok (("Título: " ++ t) ::
        (lineaOpcional "Fecha: " (dictGet ep "fecha") ++
         lineaOpcional "Duración: " (dictGet ep "duracion") ++
         lineaOpcional "Programa: " (dictGet ep "programa") ++
         lineaOpcional "Emisora: " (dictGet ep "emisora") ++
         lineaOpcional "Descripción: " (dictGet ep "descripcion") ++
         lineaOpcional "URL: " (dictGet ep "url") ++
         [SEP])) := by
  unfold lineasBloque
  rw [h]

/-- Structure of one record's block: a title line first, the separator
last, and every line either the separator or one of the seven labelled
forms. -/
theorem bloque_estructura (ep : Registro) (t : String) (b : List String)
    (hlook : dictLookup ep "titulo" = some t) (hb : lineasBloque ep = .ok b) :
    b.head? = some ("Título: " ++ t) ∧
    b.getLast? = some SEP ∧
    ∀ l ∈ b, l = SEP ∨ ∃ v,
      l = "Título: " ++ v ∨ l = "Fecha: " ++ v ∨ l = "Duración: " ++ v ∨
      l = "Programa: " ++ v ∨ l = "Emisora: " ++ v ∨ l = "Descripción: " ++ v ∨
      l = "URL: " ++ v := by
  rw [lineasBloque_ok ep t hlook] at hb
  have hbe := Except.ok.inj hb
  subst hbe
  refine ⟨rfl, ?_, ?_⟩
  · rw [show ("Título: " ++ t) ::
        (lineaOpcional "Fecha: " (dictGet ep "fecha") ++
         lineaOpcional "Duración: " (dictGet ep "duracion") ++
         lineaOpcional "Programa: " (dictGet ep "programa") ++
         lineaOpcional "Emisora: " (dictGet ep "emisora") ++
         lineaOpcional "Descripción: " (dictGet ep "descripcion") ++
         lineaOpcional "URL: " (dictGet ep "url") ++
         [SEP]) =
      (("Título: " ++ t) ::
        (lineaOpcional "Fecha: " (dictGet ep "fecha") ++
         lineaOpcional "Duración: " (dictGet ep "duracion") ++
         lineaOpcional "Programa: " (dictGet ep "programa") ++
         lineaOpcional "Emisora: " (dictGet ep "emisora") ++
         lineaOpcional "Descripción: " (dictGet ep "descripcion") ++
         lineaOpcional "URL: " (dictGet ep "url"))) ++ [SEP] from by
        simp [List.append_assoc]]
    exact List.getLast?_concat _
  · intro l hl
    rw [List.mem_cons] at hl
    rcases hl with h | hl
    · exact Or.inr ⟨t, Or.inl h⟩
    rw [List.mem_append] at hl
    rcases hl with hl | h
    case inr =>
      rw [List.mem_singleton] at h
      exact Or.inl h
    rw [List.mem_append] at hl
    rcases hl with hl | h
    case inr =>
      exact Or.inr ⟨_, Or.inr (Or.inr (Or.inr (Or.inr (Or.inr (Or.inr (mem_lineaOpcional h))))))⟩
    rw [List.mem_append] at hl
    rcases hl with hl | h
    case inr =>
      exact Or.inr ⟨_, Or.inr (Or.inr (Or.inr (Or.inr (Or.inr (Or.inl (mem_lineaOpcional h))))))⟩
    rw [List.mem_append] at hl
    rcases hl with hl | h
    case inr =>
      exact Or.inr ⟨_, Or.inr (Or.inr (Or.inr (Or.inr (Or.inl (mem_lineaOpcional h)))))⟩
    rw [List.mem_append] at hl
    rcases hl with hl | h
    case inr =>
      exact Or.inr ⟨_, Or.inr (Or.inr (Or.inr (Or.inl (mem_lineaOpcional h))))⟩
    rw [List.mem_append] at hl
    rcases hl with hl | h
    case inr =>
      exact Or.inr ⟨_, Or.inr (Or.inr (Or.inl (mem_lineaOpcional h)))⟩
    exact Or.inr ⟨_, Or.inr (Or.inl (mem_lineaOpcional hl))⟩

/-- With every record carrying a title key, the text branch raises nothing
and produces exactly the concatenation of the per-record blocks. -/
theorem textoLineas_eq_bloques (eps : List Registro)
    (h : ∀ ep ∈ eps, dictHasKey ep "titulo" = true) :
    textoLineas eps = .ok (bloquesDe eps).flatten := by
  induction eps with
  | nil => rfl
  | cons ep rest ih =>
    have hhead : dictHasKey ep "titulo" = true := h ep (List.mem_cons_self ep rest)
    obtain ⟨t, hlook⟩ := Option.isSome_iff_exists.mp hhead
    have hb := lineasBloque_ok ep t hlook
    have hrest := ih (fun x hx => h x (List.mem_cons_of_mem ep hx))
    rw [textoLineas, hb, hrest]
    show Except.ok _ = _
    rw [show bloquesDe (ep :: rest) =
        (("Título: " ++ t) ::
          (lineaOpcional "Fecha: " (dictGet ep "fecha") ++
           lineaOpcional "Duración: " (dictGet ep "duracion") ++
           lineaOpcional "Programa: " (dictGet ep "programa") ++
           lineaOpcional "Emisora: " (dictGet ep "emisora") ++
           lineaOpcional "Descripción: " (dictGet ep "descripcion") ++
           lineaOpcional "URL: " (dictGet ep "url") ++
           [SEP])) :: bloquesDe rest from by
      unfold bloquesDe
      rw [List.map_cons, hb]]
    rw [List.flatten_cons]

theorem formatear_texto_eq (eps : List Registro) :
    formatear_salida eps "texto" = (textoLineas eps).map (String.intercalate "\n") :=
  rfl

/-- Claim C7 (amended): the text format emits one block per record; each
block starts with a title line, ends with the fixed 40-character separator,
and its remaining lines are the conditional field lines — besides the
claim's date, duration and description lines, the code also emits
`Programa: `, `Emisora: ` and `URL: ` lines when those fields are
non-empty, so "no other lines" fails as stated (see counterexample). -/
theorem formato_texto_bloques (eps : List Registro)
    (h : ∀ ep ∈ eps, dictHasKey ep "titulo" = true) :
    textoLineas eps = .ok (bloquesDe eps).flatten ∧
    formatear_salida eps "texto" = .ok (String.intercalate "\n" (bloquesDe eps).flatten) ∧
    (bloquesDe eps).length = eps.length ∧
    SEP.length = 40 ∧
    ∀ b ∈ bloquesDe eps,
      (∃ t, b.head? = some ("Título: " ++ t)) ∧
      b.getLast? = some SEP ∧
      ∀ l ∈ b, l = SEP ∨ ∃ v,
        l = "Título: " ++ v ∨ l = "Fecha: " ++ v ∨ l = "Duración: " ++ v ∨
        l = "Programa: " ++ v ∨ l = "Emisora: " ++ v ∨ l = "Descripción: " ++ v ∨
        l = "URL: " ++ v := by
  have h1 := textoLineas_eq_bloques eps h
  refine ⟨h1, ?_, ?_, by decide, ?_⟩
  · rw [formatear_texto_eq, h1]
    rfl
  · unfold bloquesDe
    exact List.length_map eps _
  · intro b hb
    unfold bloquesDe at hb
    rw [List.mem_map] at hb
    obtain ⟨ep, hep, hbeq⟩ := hb
    obtain ⟨t, hlook⟩ := Option.isSome_iff_exists.mp (h ep hep)
    have hbok : lineasBloque ep = .ok b := by
      rw [lineasBloque_ok ep t hlook] at hbeq ⊢
      rw [← hbeq]
    have hstr := bloque_estructura ep t b hlook hbok
    exact ⟨⟨t, hstr.1⟩, hstr.2.1, hstr.2.2⟩

theorem formato_texto_bloques_witness :
    textoLineas [epConURL] = .ok (bloquesDe [epConURL]).flatten ∧
    formatear_salida [epConURL] "texto" =
      .ok (String.intercalate "\n" (bloquesDe [epConURL]).flatten) ∧
    (bloquesDe [epConURL]).length = [epConURL].length ∧
    SEP.length = 40 ∧
    ∀ b ∈ bloquesDe [epConURL],
      (∃ t, b.head? = some ("Título: " ++ t)) ∧
      b.getLast? = some SEP ∧
      ∀ l ∈ b, l = SEP ∨ ∃ v,
        l = "Título: " ++ v ∨ l = "Fecha: " ++ v ∨ l = "Duración: " ++ v ∨
        l = "Programa: " ++ v ∨ l = "Emisora: " ++ v ∨ l = "Descripción: " ++ v ∨
        l = "URL: " ++ v :=
  formato_texto_bloques [epConURL] (by decide)

/-- Claim C7 counterexample: a record with a non-empty `url` field makes
the text block contain the line "URL: http://x", which is neither the
separator nor a title, date, duration or description line — so a block
holds lines beyond those the claim allows. -/
theorem formato_texto_url_contraejemplo :
    formatear_salida [epConURL] "texto" = .ok ("Título: T\nURL: http://x\n" ++ SEP) ∧
    textoLineas [epConURL] = .ok ["Título: T", "URL: http://x", SEP] ∧
    ("URL: http://x" == SEP) = false ∧
    "Título: ".toList.isPrefixOf "URL: http://x".toList = false ∧
    "Fecha: ".toList.isPrefixOf "URL: http://x".toList = false ∧
    "Duración: ".toList.isPrefixOf "URL: http://x".toList = false ∧
    "Descripción: ".toList.isPrefixOf "URL: http://x".toList = false :=
  ⟨rfl, rfl, by decide, by decide, by decide, by decide, by decide⟩

/-! ## CSV lemmas -/

theorem dictAFila_ok (keys : List String) (r : Registro)
    (h : ∀ kv ∈ r, kv.1 ∈ keys) :
    dictAFila keys r = .ok (keys.map (dictGet r)) := by
  unfold dictAFila
  rw [if_pos]
  rw [List.all_eq_true]
  intro kv hkv
  exact List.elem_eq_true_of_mem (h kv hkv)

theorem mapM_dictAFila (keys : List String) :
    ∀ l : List Registro,
      (∀ r ∈ l, ∀ kv ∈ r, kv.1 ∈ keys) →
      l.mapM (dictAFila keys) = .ok (l.map (fun r => keys.map (dictGet r))) := by
  intro l
  induction l with
  | nil => intro _; rfl
  | cons r rest ih =>
    intro h
    rw [List.mapM_cons, dictAFila_ok keys r (h r (List.mem_cons_self r rest)),
      ih (fun x hx => h x (List.mem_cons_of_mem r hx))]
    rfl

/-- Claim C8 (amended): the csv format renders the empty sequence as the
empty string with no header; a non-empty sequence whose records use only
keys of the first record yields a header row of exactly the first record's
field names followed by one data row per record in sequence order (missing
keys become empty fields); a later record carrying a key outside the first
record's field names instead makes `csv.DictWriter` raise `ValueError`
(see counterexample), so the claim's unconditional "one data row per
record" fails. -/
theorem formato_csv (e : Registro) (es : List Registro)
    (h : ∀ r ∈ e :: es, ∀ kv ∈ r, kv.1 ∈ dictKeys e) :
    formatear_salida [] "csv" = .ok "" ∧
    formatear_salida (e :: es) "csv" =
      .ok (csvFila (dictKeys e) ++
        String.join ((e :: es).map (fun r => csvFila ((dictKeys e).map (dictGet r))))) := by
  constructor
  · rfl
  · show csvSalida (e :: es) = _
    have hdef : csvSalida (e :: es) =
        Except.map (fun filas => csvFila (dictKeys e) ++ String.join (filas.map csvFila))
          ((e :: es).mapM (dictAFila (dictKeys e))) := rfl
    rw [hdef, mapM_dictAFila (dictKeys e) (e :: es) h]
    show Except.ok _ = _
    simp only [List.map_map]
    rfl

theorem formato_csv_witness :
    formatear_salida [] "csv" = .ok "" ∧
    formatear_salida [regVacio, regVacio] "csv" =
      .ok (csvFila (dictKeys regVacio) ++
        String.join ([regVacio, regVacio].map
          (fun r => csvFila ((dictKeys regVacio).map (dictGet r))))) :=
  formato_csv regVacio [regVacio] (by decide)

/-- Claim C8 counterexample: a non-empty sequence whose second record has a
`descripcion` key absent from the first record's field names does not
yield header-plus-rows: `csv.DictWriter` (default `extrasaction='raise'`)
raises `ValueError`, which escapes `formatear_salida`. -/
theorem formato_csv_contraejemplo :
    formatear_salida [regVacio, regConDescripcion] "csv" =
      .error "ValueError: dict contains fields not in fieldnames" ∧
    (formatear_salida [regVacio, regConDescripcion] "csv").isOk = false :=
  ⟨rfl, by decide⟩

/-- Claim C10: every format selector other than "json" and "csv" —
arbitrary unrecognized strings included, not only "texto" — takes the text
branch: the output equals the text-format rendering, and no error is
raised for sequences of parser-produced records (which always carry a
title key). -/
theorem formato_desconocido_texto (eps : List Registro) (formato : String)
    (h1 : formato ≠ "json") (h2 : formato ≠ "csv") :
    formatear_salida eps formato = formatear_salida eps "texto" ∧
    ((∀ ep ∈ eps, dictHasKey ep "titulo" = true) →
      ∃ out, formatear_salida eps formato = .ok out) := by
  have heq : formatear_salida eps formato = (textoLineas eps).map (String.intercalate "\n") := by
    unfold formatear_salida
    rw [if_neg (by simp [h1]), if_neg (by simp [h2])]
  constructor
  · rw [heq, formatear_texto_eq]
  · intro ht
    rw [heq, textoLineas_eq_bloques eps ht]
    exact ⟨_, rfl⟩

theorem formato_desconocido_texto_witness :
    (formatear_salida [regVacio] "xml" = formatear_salida [regVacio] "texto" ∧
      ((∀ ep ∈ [regVacio], dictHasKey ep "titulo" = true) →
        ∃ out, formatear_salida [regVacio] "xml" = .ok out)) ∧
    formatear_salida [regVacio] "xml" = .ok ("Título: Sin título\n" ++ SEP) :=
  ⟨formato_desconocido_texto [regVacio] "xml" (by decide) (by decide), rfl⟩

end Discocli
